import Mathlib

/-!
Verification of the Churninator-9000 retraining pipeline
(`churnobyl/engine.py` and `churnobyl/src/data.py`) against its
natural-language specification.  Python functions are shallowly embedded
as Lean functions: dataframes become lists of records, raised exceptions
become `Except` errors, and the Prefect flow becomes the ordered list of
task invocations appearing in its body.
-/

/-- Errors raised by the pipeline code.  `configValidationError` is the
custom exception class imported from `src.exceptions`.  Modelled from the
spec: the class body itself is not under `src/`; per the spec it is "a
single custom error kind", distinct from the generic `Exception` used
elsewhere (`exception` below).  `typeError` is Python's built-in
`TypeError`, raised for instance when a function is called with a
keyword argument it does not accept. -/
inductive PyError where
  | configValidationError (msg : String)
  | exception (msg : String)
  | typeError (msg : String)
deriving DecidableEq, Repr

/-! ## Pipeline workflow (`churnobyl/engine.py`)

The Prefect flow `workflow` is a straight-line sequence of task calls.
We record the tasks defined in the file and, separately, the exact order
in which `workflow`'s body invokes them. -/

/-- The stages of the retraining pipeline, one per `@task`-decorated
function in `engine.py` (`visualize` is `visualize_insights`,
`push` is `push_artifacts`). -/
inductive Stage where
  | setup
  | load
  | validate
  | split
  | transform
  | train
  | tune
  | visualize
  | push
deriving DecidableEq, Repr

/-- The tasks defined in `engine.py`, in source order: `setup_pipeline`,
`data_loader`, `data_validator`, `data_splits`, `data_transformer`,
`train_models`, `tune_models`, `visualize_insights`, `push_artifacts`. -/
def definedTasks : List Stage :=
  [.setup, .load, .validate, .split, .transform, .train, .tune, .visualize, .push]

/-- The task invocations made by the body of `workflow` (engine.py,
lines 173-222), in execution order: `setup_pipeline`, `data_loader`,
`data_splits`, `data_transformer`, `train_models`, `tune_models`,
`visualize_insights`, `push_artifacts`.  `data_validator` is never
invoked: `data_splits` is called directly on the result of
`data_loader`. -/
def workflowStages : List Stage :=
  [.setup, .load, .split, .transform, .train, .tune, .visualize, .push]

/-! ## Dataframe rows and the pandera schema (`churnobyl/src/data.py`)

A dataframe row carries the 21 columns of `DataSchema`.  Numeric columns
use `Int` (int64) and `Rat` (float64). -/

/-- One row of the churn dataframe, with the columns of `DataSchema`. -/
structure Row where
  customerID : String
  gender : String
  SeniorCitizen : Int
  Partner : String
  Dependents : String
  tenure : Int
  PhoneService : String
  MultipleLines : String
  InternetService : String
  OnlineSecurity : String
  OnlineBackup : String
  DeviceProtection : String
  TechSupport : String
  StreamingTV : String
  StreamingMovies : String
  Contract : String
  PaperlessBilling : String
  PaymentMethod : String
  MonthlyCharges : Rat
  TotalCharges : String
  Churn : String
deriving DecidableEq, Repr

/-- The allowed-value sets of the `checks` dict at the top of `data.py`
(only the columns that have an `isin` check there; `SeniorCitizen` uses
integers and `tenure` a lower bound, handled inline below). -/
def checksGender : List String := ["Male", "Female"]

def checksSeniorCitizen : List Int := [0, 1]

def checksPartner : List String := ["Yes", "No"]

def checksDependents : List String := ["Yes", "No"]

def checksPhoneService : List String := ["No", "Yes"]

def checksMultipleLines : List String := ["No", "Yes", "No phone service"]

def checksInternetService : List String := ["DSL", "Fiber optic", "No"]

def checksOnlineSecurity : List String := ["No", "Yes", "No internet service"]

def checksOnlineBackup : List String := ["Yes", "No", "No internet service"]

def checksDeviceProtection : List String := ["No", "Yes", "No internet service"]

def checksTechSupport : List String := ["No", "Yes", "No internet service"]

def checksStreamingTV : List String := ["No", "Yes", "No internet service"]

def checksStreamingMovies : List String := ["No", "Yes", "No internet service"]

def checksContract : List String := ["Month-to-month", "One year", "Two year"]

def checksPaperlessBilling : List String := ["Yes", "No"]

def checksPaymentMethod : List String :=
  ["Electronic check", "Mailed check", "Bank transfer (automatic)",
   "Credit card (automatic)"]

def checksChurn : List String := ["No", "Yes"]

/-- The column-level failures of one row under `DataSchema`.  Each column
of the schema applies the check list it was constructed with: for every
column this is `checks.get(name)`, EXCEPT `PaperlessBilling`, whose
`pa.Column` is built with `checks=None` (data.py line 236), so the
`isin(["Yes", "No"])` entry of the `checks` dict is never applied to it.
Returns the names of the failing columns, in schema order. -/
def rowFailures (r : Row) : List String :=
  (if checksGender.contains r.gender then [] else ["gender"]) ++
  (if checksSeniorCitizen.contains r.SeniorCitizen then [] else ["SeniorCitizen"]) ++
  (if checksPartner.contains r.Partner then [] else ["Partner"]) ++
  (if checksDependents.contains r.Dependents then [] else ["Dependents"]) ++
  (if (0 : Int) ≤ r.tenure then [] else ["tenure"]) ++
  (if checksPhoneService.contains r.PhoneService then [] else ["PhoneService"]) ++
  (if checksMultipleLines.contains r.MultipleLines then [] else ["MultipleLines"]) ++
  (if checksInternetService.contains r.InternetService then [] else ["InternetService"]) ++
  (if checksOnlineSecurity.contains r.OnlineSecurity then [] else ["OnlineSecurity"]) ++
  (if checksOnlineBackup.contains r.OnlineBackup then [] else ["OnlineBackup"]) ++
  (if checksDeviceProtection.contains r.DeviceProtection then [] else ["DeviceProtection"]) ++
  (if checksTechSupport.contains r.TechSupport then [] else ["TechSupport"]) ++
  (if checksStreamingTV.contains r.StreamingTV then [] else ["StreamingTV"]) ++
  (if checksStreamingMovies.contains r.StreamingMovies then [] else ["StreamingMovies"]) ++
  (if checksContract.contains r.Contract then [] else ["Contract"]) ++
  (if checksPaymentMethod.contains r.PaymentMethod then [] else ["PaymentMethod"]) ++
  (if checksChurn.contains r.Churn then [] else ["Churn"])

/-- All (row index, failing column) pairs of a dataframe, collected in a
single pass over every row: the embedding of pandera's lazy validation
(`DataSchema.validate(..., lazy=True)`), which accumulates the full
failure-case table instead of stopping at the first failure. -/
def failureCases (data : List Row) : List (Nat × String) :=
  (List.range data.length).flatMap fun i =>
    match data.get? i with
    | some r => (rowFailures r).map fun c => (i, c)
    | none => []

/-- Embedding of `DataEngine.validate`: validate lazily; when the failure
table is non-empty, print it and raise one generic `Exception`; otherwise
return the dataframe unchanged. -/
def DataEngine.validate (data : List Row) : Except PyError (List Row) :=
  if failureCases data = [] then .ok data
  else .error (.exception "Schema errors and failure cases")

/-! ## Train/test split (`DataEngine.split`)

`DataEngine.split` drops the `Churn` column to form the feature frame
`X`, keeps `Churn` as the label frame `y`, and calls sklearn's
`train_test_split(X, y, test_size=config.ratio, random_state=seed)`.
sklearn draws a pseudo-random permutation of the row indices from the
seed, takes the first `ceil(ratio * n)` positions as the test set and
the remaining positions as the training set, applying the same index
partition to `X` and `y`.  The permutation drawn from the seed is a
parameter `perm` of the embedding. -/

/-- A feature row: a `Row` with the `Churn` column dropped
(`data.drop("Churn")`). -/
structure XRow where
  customerID : String
  gender : String
  SeniorCitizen : Int
  Partner : String
  Dependents : String
  tenure : Int
  PhoneService : String
  MultipleLines : String
  InternetService : String
  OnlineSecurity : String
  OnlineBackup : String
  DeviceProtection : String
  TechSupport : String
  StreamingTV : String
  StreamingMovies : String
  Contract : String
  PaperlessBilling : String
  PaymentMethod : String
  MonthlyCharges : Rat
  TotalCharges : String
deriving DecidableEq, Repr

/-- Dropping the `Churn` column from a row (`data.drop("Churn")`). -/
def Row.dropChurn (r : Row) : XRow :=
  { customerID := r.customerID, gender := r.gender
    SeniorCitizen := r.SeniorCitizen, Partner := r.Partner
    Dependents := r.Dependents, tenure := r.tenure
    PhoneService := r.PhoneService, MultipleLines := r.MultipleLines
    InternetService := r.InternetService, OnlineSecurity := r.OnlineSecurity
    OnlineBackup := r.OnlineBackup, DeviceProtection := r.DeviceProtection
    TechSupport := r.TechSupport, StreamingTV := r.StreamingTV
    StreamingMovies := r.StreamingMovies, Contract := r.Contract
    PaperlessBilling := r.PaperlessBilling, PaymentMethod := r.PaymentMethod
    MonthlyCharges := r.MonthlyCharges, TotalCharges := r.TotalCharges }

/-- Number of test rows chosen by sklearn for a float `test_size`:
`ceil(ratio * n)`. -/
def nTestOf (q : Rat) (n : Nat) : Nat := (q * n).ceil.toNat

/-- The test-set index positions: the first `ceil(ratio * n)` entries of
the shuffled index permutation. -/
def testIndices (q : Rat) (perm : List Nat) (n : Nat) : List Nat :=
  perm.take (nTestOf q n)

/-- The train-set index positions: the remaining entries of the shuffled
index permutation. -/
def trainIndices (q : Rat) (perm : List Nat) (n : Nat) : List Nat :=
  perm.drop (nTestOf q n)

/-- The four dataframes returned by `DataEngine.split`. -/
structure SplitOutput where
  X_train : List XRow
  X_test : List XRow
  y_train : List String
  y_test : List String
deriving DecidableEq, Repr

/-- Embedding of `DataEngine.split`: form `X` and `y`, then partition the
rows of both by the index permutation `perm` drawn from the seed,
test set first `ceil(ratio * n)` positions, train set the rest. -/
def DataEngine.split (q : Rat) (perm : List Nat) (data : List Row) : SplitOutput :=
  let X := data.map Row.dropChurn
  let y := data.map Row.Churn
  { X_train := (trainIndices q perm data.length).filterMap fun i => X.get? i
    X_test := (testIndices q perm data.length).filterMap fun i => X.get? i
    y_train := (trainIndices q perm data.length).filterMap fun i => y.get? i
    y_test := (testIndices q perm data.length).filterMap fun i => y.get? i }

/-! ## Configuration validation (`validate_data_config`)

The `Box` config object is modelled structurally: the key lists of the
`data`, `split` and `transform` sections (Python dicts preserve
insertion order) together with the values the validator inspects. -/

/-- A dynamically-typed config value, as needed by the
`isinstance(split_config.stratify, bool)` check. -/
inductive PyVal where
  | pyBool (b : Bool)
  | pyStr (s : String)
  | pyInt (n : Int)
  | pyFloat (q : Rat)
deriving DecidableEq, Repr

/-- Whether a config value is a Python `bool`. -/
def PyVal.isBool : PyVal → Bool
  | .pyBool _ => true
  | _ => false

/-- The slice of the YAML config consumed by `validate_data_config`. -/
structure DataConfig where
  stageKeys : List String
  loadStrategy : String
  splitKeys : List String
  ratio : Rat
  stratify : PyVal
  transformKeys : List String
  scale : List String
  dummy : List String
  ordinal : List String
deriving DecidableEq, Repr

/-- The allow-list of data stages (`data_stages` in the source). -/
def dataStages : List String := ["load", "split", "transform"]

/-- The keys of `DataLoaderStrategyFactory`: the valid loading
strategies. -/
def strategyNames : List String := ["dir", "aws_s3"]

/-- The allow-list of split arguments (`split_args` in the source). -/
def splitArgs : List String := ["ratio", "stratify"]

/-- The allow-list of transform parameters (`transform_params`). -/
def transformParams : List String := ["scale", "dummy", "ordinal"]

/-- First key of `keys` that is outside the allow-list `allowed` (the
first iteration of the source's `for`/`if`/`raise` loop that raises). -/
def findBadKey (keys allowed : List String) : Option String :=
  keys.find? fun k => !(allowed.contains k)

/-- The flat list `cols` built by the source: every column of the
`scale`, then `dummy`, then `ordinal` transform parameters. -/
def transformCols (c : DataConfig) : List String :=
  c.scale ++ c.dummy ++ c.ordinal

/-- Embedding of `validate_data_config`, following the source's check
order: unknown data-section key, unknown load strategy, unknown
split-section key, ratio greater than 1.0, non-boolean stratify, unknown
transform-section key, duplicate column across the transform parameter
lists (`len(cols) != len(set(cols))`).  Each check raises
`ConfigValidationError`; note that only `ratio > 1.0` is tested, not a
lower bound. -/
def validate_data_config (c : DataConfig) : Except PyError Unit :=
  match findBadKey c.stageKeys dataStages with
  | some s => .error (.configValidationError ("Stage '" ++ s ++ "' not in DataStages"))
  | none =>
    if !(strategyNames.contains c.loadStrategy) then
      .error (.configValidationError
        ("Strategy '" ++ c.loadStrategy ++ "' not valid data loading strategy."))
    else
      match findBadKey c.splitKeys splitArgs with
      | some a => .error (.configValidationError ("Unknown split argument '" ++ a ++ "'."))
      | none =>
        if 1 < c.ratio then
          .error (.configValidationError
            "Split should be a ratio with float dtype. It should be between 0.0 and 1.0")
        else if !(c.stratify.isBool) then
          .error (.configValidationError "Stratify should either be true or false")
        else
          match findBadKey c.transformKeys transformParams with
          | some p =>
            .error (.configValidationError
              (p ++ " not present in transformation parameters"))
          | none =>
            if (transformCols c).length ≠ (transformCols c).dedup.length then
              .error (.configValidationError
                "Columns should be unique within the transform parameters")
            else .ok ()

/-! ## Data loading strategies

Both strategies read each matching `.csv` with
`pl.scan_csv(..., dtypes={"TotalCharges": pl.String})` followed by
`pl.col("TotalCharges").str.replace(pattern=" ", value="0")`, then
concatenate the resulting dataframes vertically.  Polars'
`str.replace` replaces only the FIRST match of the pattern in each
string.  CSV contents are modelled as lists of raw rows; a raw row is
its `TotalCharges` cell (a list of characters) together with the cells
of all other columns. -/

/-- A raw CSV row: the `TotalCharges` cell and the remaining cells. -/
structure CsvRow where
  totalCharges : List Char
  otherCells : List String
deriving DecidableEq, Repr

/-- Polars `str.replace(pattern=" ", value="0")` on one cell: replace
the first occurrence of a space by `'0'`, leave the rest unchanged. -/
def replaceFirstSpace : List Char → List Char
  | [] => []
  | c :: cs => if c = ' ' then '0' :: cs else c :: replaceFirstSpace cs

/-- Reading one CSV: apply the `TotalCharges` replacement to every row,
leaving all other cells as read. -/
def readCsv (rows : List CsvRow) : List CsvRow :=
  rows.map fun r => { r with totalCharges := replaceFirstSpace r.totalCharges }

/-- The characters of the `.csv` file-name suffix. -/
def csvSuffix : List Char := ['.', 'c', 's', 'v']

/-- A directory entry: a file name (as characters) and, when the file is
a CSV the loader can parse, its rows. -/
structure FsEntry where
  name : List Char
  content : List CsvRow
deriving DecidableEq, Repr

/-- The local filesystem as seen by `DirDataLoaderStrategy`: whether the
configured path is a directory, and its entries. -/
structure Directory where
  isDir : Bool
  entries : List FsEntry
deriving DecidableEq, Repr

/-- The entries matched by `self.dir.glob("*.csv")`: those whose name
ends in `.csv`. -/
def csvEntries (d : Directory) : List FsEntry :=
  d.entries.filter fun e => csvSuffix.isSuffixOf e.name

/-- Embedding of `DirDataLoaderStrategy.__call__`: raise a generic
`Exception` when the path is not a directory or when the glob matches no
`.csv` file; otherwise read every matched CSV and concatenate. -/
def DirDataLoaderStrategy.call (d : Directory) : Except PyError (List CsvRow) :=
  if d.isDir then
    if (csvEntries d).length = 0 then
      .error (.exception "No .csv present in the directory")
    else
      .ok ((csvEntries d).map fun e => readCsv e.content).flatten
  else .error (.exception "Path provided is not a directory")

/-- An S3 object listed under the bucket/prefix: its key, whether
`pl.scan_csv(...).collect()` on it succeeds (the source swallows
per-object load errors), and its rows when it does. -/
structure S3Object where
  key : List Char
  loadable : Bool
  content : List CsvRow
deriving DecidableEq, Repr

/-- The objects that contribute a dataframe: keys ending in `.csv`
whose load succeeds. -/
def loadableCsvObjects (objs : List S3Object) : List S3Object :=
  objs.filter fun o => csvSuffix.isSuffixOf o.key && o.loadable

/-- Embedding of `AwsS3DataLoaderStrategy.__call__`: read every loadable
`.csv` object and raise a generic `Exception` when none was loaded.
When at least one was loaded, the source executes
`pl.concat(dataframes, ignore_index=True)` (data.py line 389); polars'
`concat` accepts no `ignore_index` keyword (that parameter belongs to
pandas), so the call raises `TypeError` and this path never returns a
dataframe. -/
def AwsS3DataLoaderStrategy.call (objs : List S3Object) : Except PyError (List CsvRow) :=
  let dataframes := (loadableCsvObjects objs).map fun o => readCsv o.content
  if dataframes.length = 0 then
    .error (.exception "No data found. Check the contents in the bucket and folder")
  else
    .error (.typeError "concat() got an unexpected keyword argument ignore_index")

/-! ## Transformer output (`TransformerOutput`)

`TransformerOutput` is declared `@dataclass(frozen=True)`: the generated
`__setattr__` raises `FrozenInstanceError` on every field assignment.
The four numeric arrays are modelled as matrices of rationals. -/

/-- The four fields of `TransformerOutput`. -/
inductive TOField where
  | fieldXTrain
  | fieldXTest
  | fieldYTrain
  | fieldYTest
deriving DecidableEq, Repr

/-- The immutable bundle of four numeric arrays produced by
`DataEngine.transform`. -/
structure TransformerOutput where
  X_train : List (List Rat)
  X_test : List (List Rat)
  y_train : List (List Rat)
  y_test : List (List Rat)
deriving DecidableEq, Repr

/-- The `frozen` flag of the `@dataclass(frozen=True)` declaration. -/
def TransformerOutput.frozen : Bool := true

/-- The result of a Python attribute assignment on a dataclass
instance. -/
inductive SetattrResult where
  | assigned (t : TransformerOutput)
  | frozenInstanceError
deriving DecidableEq, Repr

/-- Embedding of the dataclass-generated `__setattr__` for
`TransformerOutput`: a frozen dataclass raises `FrozenInstanceError` on
any field assignment; a non-frozen one would update the field. -/
def TransformerOutput.setattr (t : TransformerOutput) (f : TOField)
    (v : List (List Rat)) : SetattrResult :=
  if TransformerOutput.frozen then .frozenInstanceError
  else
    .assigned (match f with
      | .fieldXTrain => { t with X_train := v }
      | .fieldXTest => { t with X_test := v }
      | .fieldYTrain => { t with y_train := v }
      | .fieldYTest => { t with y_test := v })

/-! ## Specification-side definitions

These two definitions follow the wording of the specification claims
about the `TotalCharges` replacement (not the source), for comparison
with the loader embedding above. -/

/-- Replacement of EVERY occurrence of a space by `"0"`, as the claim
about the loaders words it. -/
def specReplaceAllSpaces (cs : List Char) : List Char :=
  cs.map fun c => if c = ' ' then '0' else c

/-- Relational form of the amended claim: the output equals the input
with exactly its first space (when one exists) replaced by `'0'`. -/
def FirstSpaceReplaced (inp out : List Char) : Prop :=
  (' ' ∉ inp ∧ out = inp) ∨
  ∃ pre post, inp = pre ++ ' ' :: post ∧ ' ' ∉ pre ∧ out = pre ++ '0' :: post

/-- The raw rows of all `.csv` files of a directory, in load order,
before the `TotalCharges` replacement. -/
def dirCsvRows (d : Directory) : List CsvRow :=
  ((csvEntries d).map fun e => e.content).flatten

/-! ## Concrete inputs used as witnesses and counterexamples -/

/-- A row satisfying every check of `DataSchema`. -/
def sampleRow : Row :=
  { customerID := "0001-A", gender := "Male", SeniorCitizen := 0
    Partner := "Yes", Dependents := "No", tenure := 12
    PhoneService := "Yes", MultipleLines := "No", InternetService := "DSL"
    OnlineSecurity := "No", OnlineBackup := "Yes", DeviceProtection := "No"
    TechSupport := "No", StreamingTV := "No", StreamingMovies := "No"
    Contract := "One year", PaperlessBilling := "Yes"
    PaymentMethod := "Mailed check", MonthlyCharges := 50
    TotalCharges := "600", Churn := "No" }

/-- A second schema-conforming row, distinct from `sampleRow`. -/
def sampleRow2 : Row :=
  { sampleRow with customerID := "0002-B", gender := "Female"
                   Contract := "Two year", Churn := "Yes" }

/-- A row whose `PaperlessBilling` value is outside the
`isin(["Yes", "No"])` set of the `checks` dict, every other column
conforming. -/
def badPaperlessRow : Row :=
  { sampleRow with customerID := "0003-C", PaperlessBilling := "Maybe" }

/-- A row with an out-of-domain `gender` value. -/
def badGenderRow : Row :=
  { sampleRow with customerID := "0004-D", gender := "Unknown" }

/-- A row with an out-of-domain `Contract` value. -/
def badContractRow : Row :=
  { sampleRow with customerID := "0005-E", Contract := "Weekly" }

/-- A configuration passing every check of `validate_data_config`. -/
def validConfig : DataConfig :=
  { stageKeys := ["load", "split", "transform"], loadStrategy := "dir"
    splitKeys := ["ratio", "stratify"], ratio := mkRat 1 4
    stratify := .pyBool true
    transformKeys := ["scale", "dummy", "ordinal"]
    scale := ["tenure", "MonthlyCharges"], dummy := ["gender"]
    ordinal := ["Contract"] }

/-- A configuration identical to `validConfig` except for a negative
split ratio. -/
def negRatioConfig : DataConfig :=
  { validConfig with ratio := mkRat (-1) 2 }

/-- A configuration with an unknown key in the split section. -/
def badSplitKeyConfig : DataConfig :=
  { validConfig with splitKeys := ["ratio", "stratify", "shuffle"] }

/-- A configuration in which the column `"tenure"` appears in both the
`scale` and `dummy` transform parameter lists. -/
def dupColsConfig : DataConfig :=
  { validConfig with dummy := ["tenure", "gender"] }

/-- A directory whose single CSV holds one row whose `TotalCharges`
cell is two spaces. -/
def twoSpacesDir : Directory :=
  { isDir := true
    entries := [{ name := ['a', '.', 'c', 's', 'v']
                  content := [{ totalCharges := [' ', ' '], otherCells := ["x"] }] }] }

/-- A directory with one CSV of two rows, the first row's
`TotalCharges` cell holding one space. -/
def oneSpaceDir : Directory :=
  { isDir := true
    entries := [{ name := ['b', '.', 'c', 's', 'v']
                  content := [{ totalCharges := [' '], otherCells := ["p"] },
                              { totalCharges := ['7', '5'], otherCells := ["q"] }] }] }

/-- An S3 listing with one loadable CSV object of one row whose
`TotalCharges` cell holds one space. -/
def oneSpaceObjects : List S3Object :=
  [{ key := ['c', '.', 'c', 's', 'v'], loadable := true
     content := [{ totalCharges := [' '], otherCells := ["z"] }] }]

/-- An existing directory containing no `.csv` file. -/
def noCsvDir : Directory :=
  { isDir := true, entries := [{ name := ['n', 'o', 't', 'e', '.', 't', 'x', 't'], content := [] }] }

/-- An S3 listing with no loadable `.csv` object: a non-CSV key and a
CSV key whose load fails. -/
def noCsvObjects : List S3Object :=
  [{ key := ['n', 'o', 't', 'e', '.', 't', 'x', 't'], loadable := true, content := [] },
   { key := ['b', 'a', 'd', '.', 'c', 's', 'v'], loadable := false, content := [] }]

/-! ## Helper lemmas -/

/-- Looking up every index of a list in order returns the list. -/
theorem filterMap_get_range {α : Type} (l : List α) :
    (List.range l.length).filterMap (fun i => l.get? i) = l := by
  induction l with
  | nil => rfl
  | cons a t ih =>
    simp only [List.length_cons, List.range_succ_eq_map, List.filterMap_cons,
      List.get?_cons_zero, List.filterMap_map]
    simp only [Function.comp_def, List.get?_cons_succ]
    exact congrArg (a :: ·) ih

/-- Looking up in-bounds indices never drops an entry. -/
theorem filterMap_get_length {α : Type} (l : List α) (idx : List Nat)
    (h : ∀ i ∈ idx, i < l.length) :
    (idx.filterMap (fun i => l.get? i)).length = idx.length := by
  induction idx with
  | nil => rfl
  | cons i rest ih =>
    have hi : i < l.length := h i (by simp)
    have ha : l.get? i = some (l.get ⟨i, hi⟩) := List.get?_eq_get hi
    rw [List.filterMap_cons, ha]
    show (l.get ⟨i, hi⟩ :: rest.filterMap fun j => l.get? j).length = rest.length + 1
    rw [List.length_cons, ih fun j hj => h j (List.mem_cons_of_mem _ hj)]

/-- The result of `validate_data_config` is `ok` or a
`ConfigValidationError`; no other error kind is ever produced. -/
theorem validate_data_config_shape (c : DataConfig) :
    validate_data_config c = .ok () ∨
    ∃ m, validate_data_config c = .error (.configValidationError m) := by
  unfold validate_data_config
  repeat' split
  all_goals first
    | exact Or.inl rfl
    | exact Or.inr ⟨_, rfl⟩

/-- The embedding of polars `str.replace(" ", "0")` replaces exactly the
first space of the cell, when one exists. -/
theorem replaceFirstSpace_spec (cs : List Char) :
    FirstSpaceReplaced cs (replaceFirstSpace cs) := by
  induction cs with
  | nil => exact Or.inl ⟨List.not_mem_nil ' ', rfl⟩
  | cons c t ih =>
    by_cases hc : c = ' '
    · subst hc
      exact Or.inr ⟨[], t, rfl, List.not_mem_nil ' ', by simp [replaceFirstSpace]⟩
    · rcases ih with ⟨hnm, heq⟩ | ⟨pre, post, hsplit, hpre, hres⟩
      · refine Or.inl ⟨?_, by simp [replaceFirstSpace, hc, heq]⟩
        intro hmem
        rcases List.mem_cons.mp hmem with h | h
        · exact hc h.symm
        · exact hnm h
      · refine Or.inr ⟨c :: pre, post, by rw [hsplit]; rfl, ?_, ?_⟩
        · intro hmem
          rcases List.mem_cons.mp hmem with h | h
          · exact hc h.symm
          · exact hpre h
        · simp [replaceFirstSpace, hc, hres]

/-! ## Claims -/

/-- C1: the spec claims every pipeline run validates the loaded data
before splitting it, the stages running in the order load, validate,
split, transform, train/tune, visualize, publish.  The code contradicts
this: `engine.py` defines the `data_validator` task but the body of
`workflow` never invokes it — `data_splits` is applied directly to the
output of `data_loader`, so the data is split without ever being
schema-validated. -/
theorem workflow_never_validates :
    Stage.validate ∈ definedTasks ∧
    Stage.validate ∉ workflowStages ∧
    workflowStages = [Stage.setup, Stage.load, Stage.split, Stage.transform,
      Stage.train, Stage.tune, Stage.visualize, Stage.push] := by
  decide

/-- C2: the spec claims an out-of-domain value in any categorical column
(PaperlessBilling included) makes `DataEngine.validate` raise.  The code
contradicts this for `PaperlessBilling`: its `pa.Column` is constructed
with `checks=None` instead of `checks.get("PaperlessBilling")`, so the
`isin(["Yes", "No"])` check of the `checks` dict is never wired into
`DataSchema`, and a row with `PaperlessBilling = "Maybe"` is returned
unchanged instead of raising. -/
theorem validate_accepts_out_of_domain_paperless_billing :
    badPaperlessRow.PaperlessBilling ∉ checksPaperlessBilling ∧
    DataEngine.validate [badPaperlessRow] = .ok [badPaperlessRow] := by
  constructor
  · decide
  · rfl

/-- C3: the spec claims every out-of-range split ratio — negative ones
included — makes `validate_data_config` raise `ConfigValidationError`.
The code only tests `float(split_config.ratio) > 1.0`, so a negative
ratio passes validation, contradicting the check's own error message
("It should be between 0.0 and 1.0"): on a config with ratio `-1/2` the
function returns normally. -/
theorem validate_data_config_accepts_negative_ratio :
    negRatioConfig.ratio < 0 ∧ validate_data_config negRatioConfig = .ok () := by
  constructor
  · decide
  · rfl

/-- C7: when the dir strategy finds an existing directory with no `.csv`
file, or the aws_s3 strategy finds no loadable `.csv` object, the loader
raises a generic `Exception` (not the custom `ConfigValidationError`)
and returns no dataframe. -/
theorem loaders_raise_generic_error_when_no_csv
    (d : Directory) (objs : List S3Object)
    (hdir : d.isDir = true) (hno : csvEntries d = [])
    (hs3 : loadableCsvObjects objs = []) :
    DirDataLoaderStrategy.call d =
      .error (.exception "No .csv present in the directory") ∧
    AwsS3DataLoaderStrategy.call objs =
      .error (.exception "No data found. Check the contents in the bucket and folder") := by
  constructor
  · simp [DirDataLoaderStrategy.call, hdir, hno]
  · simp [AwsS3DataLoaderStrategy.call, hs3]

/-- Witness for C7: a directory holding only `note.txt` and an S3
listing with a non-CSV key and an unloadable CSV key. -/
theorem loaders_raise_generic_error_when_no_csv_witness :
    noCsvDir.isDir = true ∧ csvEntries noCsvDir = [] ∧
    loadableCsvObjects noCsvObjects = [] ∧
    (DirDataLoaderStrategy.call noCsvDir =
      .error (.exception "No .csv present in the directory") ∧
    AwsS3DataLoaderStrategy.call noCsvObjects =
      .error (.exception "No data found. Check the contents in the bucket and folder")) :=
  ⟨rfl, rfl, rfl,
   loaders_raise_generic_error_when_no_csv noCsvDir noCsvObjects rfl rfl rfl⟩

/-- C4: for every input dataframe with at least two rows and every valid
split ratio, `DataEngine.split` partitions the rows: the train and test
index sets are disjoint, train and test rows together are a permutation
of the input rows (for features and labels alike), and the row counts of
the two parts sum to the input row count. -/
theorem split_partitions_rows (data : List Row) (q : Rat) (perm : List Nat)
    (hperm : perm.Perm (List.range data.length))
    (h2 : 2 ≤ data.length) (h0 : 0 < q) (h1 : q < 1) :
    (DataEngine.split q perm data).X_train.length +
      (DataEngine.split q perm data).X_test.length = data.length ∧
    (DataEngine.split q perm data).y_train.length +
      (DataEngine.split q perm data).y_test.length = data.length ∧
    ((DataEngine.split q perm data).X_train ++
      (DataEngine.split q perm data).X_test).Perm (data.map Row.dropChurn) ∧
    ((DataEngine.split q perm data).y_train ++
      (DataEngine.split q perm data).y_test).Perm (data.map Row.Churn) ∧
    List.Disjoint (trainIndices q perm data.length) (testIndices q perm data.length) := by
  have hsub : ∀ i ∈ perm, i < data.length := fun i hi =>
    List.mem_range.mp (hperm.mem_iff.mp hi)
  have hlenperm : perm.length = data.length := by
    simpa using hperm.length_eq
  have hnodup : perm.Nodup := hperm.nodup_iff.mpr (List.nodup_range _)
  have happ : (trainIndices q perm data.length ++ testIndices q perm data.length).Perm perm := by
    unfold trainIndices testIndices
    have h := @List.perm_append_comm Nat (perm.drop (nTestOf q data.length))
      (perm.take (nTestOf q data.length))
    rwa [List.take_append_drop] at h
  have key : ∀ {β : Type} (L : List β), L.length = data.length →
      ((trainIndices q perm data.length).filterMap (fun i => L.get? i)).length +
        ((testIndices q perm data.length).filterMap (fun i => L.get? i)).length
          = data.length ∧
      ((trainIndices q perm data.length).filterMap (fun i => L.get? i) ++
        (testIndices q perm data.length).filterMap (fun i => L.get? i)).Perm L := by
    intro β L hL
    have hsubL : ∀ i ∈ perm, i < L.length := fun i hi => hL ▸ hsub i hi
    have hperm2 : ((trainIndices q perm data.length ++ testIndices q perm data.length).filterMap
        (fun i => L.get? i)).Perm ((List.range data.length).filterMap (fun i => L.get? i)) :=
      (happ.trans hperm).filterMap _
    rw [List.filterMap_append] at hperm2
    have hrange : (List.range data.length).filterMap (fun i => L.get? i) = L := by
      rw [← hL]
      exact filterMap_get_range L
    rw [hrange] at hperm2
    refine ⟨?_, hperm2⟩
    unfold trainIndices testIndices
    rw [filterMap_get_length L (perm.drop (nTestOf q data.length))
        (fun i hi => hsubL i (List.mem_of_mem_drop hi)),
      filterMap_get_length L (perm.take (nTestOf q data.length))
        (fun i hi => hsubL i (List.mem_of_mem_take hi))]
    have hsum := congrArg List.length
      (List.take_append_drop (nTestOf q data.length) perm)
    rw [List.length_append] at hsum
    omega
  have keyX := key (data.map Row.dropChurn) (List.length_map data Row.dropChurn)
  have keyY := key (data.map Row.Churn) (List.length_map data Row.Churn)
  have hXtr : (DataEngine.split q perm data).X_train =
      (trainIndices q perm data.length).filterMap
        (fun i => (data.map Row.dropChurn).get? i) := rfl
  have hXte : (DataEngine.split q perm data).X_test =
      (testIndices q perm data.length).filterMap
        (fun i => (data.map Row.dropChurn).get? i) := rfl
  have hYtr : (DataEngine.split q perm data).y_train =
      (trainIndices q perm data.length).filterMap
        (fun i => (data.map Row.Churn).get? i) := rfl
  have hYte : (DataEngine.split q perm data).y_test =
      (testIndices q perm data.length).filterMap
        (fun i => (data.map Row.Churn).get? i) := rfl
  refine ⟨?_, ?_, ?_, ?_, ?_⟩
  · rw [hXtr, hXte]; exact keyX.1
  · rw [hYtr, hYte]; exact keyY.1
  · rw [hXtr, hXte]; exact keyX.2
  · rw [hYtr, hYte]; exact keyY.2
  · unfold trainIndices testIndices
    exact (List.disjoint_take_drop hnodup (Nat.le_refl _)).symm

/-- Witness for C4: a two-row dataframe split with ratio `1/2` and the
index permutation `[1, 0]`. -/
theorem split_partitions_rows_witness :
    ([1, 0] : List Nat).Perm (List.range ([sampleRow, sampleRow2] : List Row).length) ∧
    2 ≤ ([sampleRow, sampleRow2] : List Row).length ∧
    0 < mkRat 1 2 ∧ mkRat 1 2 < 1 ∧
    ((DataEngine.split (mkRat 1 2) [1, 0] [sampleRow, sampleRow2]).X_train.length +
      (DataEngine.split (mkRat 1 2) [1, 0] [sampleRow, sampleRow2]).X_test.length
        = ([sampleRow, sampleRow2] : List Row).length ∧
    (DataEngine.split (mkRat 1 2) [1, 0] [sampleRow, sampleRow2]).y_train.length +
      (DataEngine.split (mkRat 1 2) [1, 0] [sampleRow, sampleRow2]).y_test.length
        = ([sampleRow, sampleRow2] : List Row).length ∧
    ((DataEngine.split (mkRat 1 2) [1, 0] [sampleRow, sampleRow2]).X_train ++
      (DataEngine.split (mkRat 1 2) [1, 0] [sampleRow, sampleRow2]).X_test).Perm
        (([sampleRow, sampleRow2] : List Row).map Row.dropChurn) ∧
    ((DataEngine.split (mkRat 1 2) [1, 0] [sampleRow, sampleRow2]).y_train ++
      (DataEngine.split (mkRat 1 2) [1, 0] [sampleRow, sampleRow2]).y_test).Perm
        (([sampleRow, sampleRow2] : List Row).map Row.Churn) ∧
    List.Disjoint (trainIndices (mkRat 1 2) [1, 0] ([sampleRow, sampleRow2] : List Row).length)
      (testIndices (mkRat 1 2) [1, 0] ([sampleRow, sampleRow2] : List Row).length)) :=
  ⟨by decide, by decide, by decide, by decide,
   split_partitions_rows [sampleRow, sampleRow2] (mkRat 1 2) [1, 0]
     (by decide) (by decide) (by decide) (by decide)⟩

/-- C5: any configuration whose data section has a key outside
`["load", "split", "transform"]`, whose split section has a key outside
`["ratio", "stratify"]`, whose transform section has a key outside
`["scale", "dummy", "ordinal"]`, or whose load strategy is outside
`["dir", "aws_s3"]`, makes `validate_data_config` raise
`ConfigValidationError`. -/
theorem validate_data_config_rejects_unknown_keys (c : DataConfig)
    (h : (∃ k ∈ c.stageKeys, k ∉ dataStages) ∨
         c.loadStrategy ∉ strategyNames ∨
         (∃ k ∈ c.splitKeys, k ∉ splitArgs) ∨
         (∃ k ∈ c.transformKeys, k ∉ transformParams)) :
    ∃ m, validate_data_config c = .error (.configValidationError m) := by
  have hne : validate_data_config c ≠ .ok () := by
    intro hok
    unfold validate_data_config at hok
    split at hok
    · simp at hok
    next hfs =>
      split at hok
      · simp at hok
      next hstrat =>
        split at hok
        · simp at hok
        next hsp =>
          split at hok
          · simp at hok
          split at hok
          · simp at hok
          next hbool =>
            split at hok
            · simp at hok
            next htr =>
              rcases h with ⟨k, hk, hk'⟩ | hs | ⟨k, hk, hk'⟩ | ⟨k, hk, hk'⟩
              · have hmem := List.find?_eq_none.mp hfs k hk
                simp at hmem
                exact hk' hmem
              · have hc : strategyNames.contains c.loadStrategy = true := by
                  revert hstrat
                  simp
                simp at hc
                exact hs hc
              · have hmem := List.find?_eq_none.mp hsp k hk
                simp at hmem
                exact hk' hmem
              · have hmem := List.find?_eq_none.mp htr k hk
                simp at hmem
                exact hk' hmem
  rcases validate_data_config_shape c with hok | herr
  · exact absurd hok hne
  · exact herr

/-- Witness for C5: a configuration whose split section holds the
unknown key `"shuffle"`. -/
theorem validate_data_config_rejects_unknown_keys_witness :
    ((∃ k ∈ badSplitKeyConfig.stageKeys, k ∉ dataStages) ∨
     badSplitKeyConfig.loadStrategy ∉ strategyNames ∨
     (∃ k ∈ badSplitKeyConfig.splitKeys, k ∉ splitArgs) ∨
     (∃ k ∈ badSplitKeyConfig.transformKeys, k ∉ transformParams)) ∧
    ∃ m, validate_data_config badSplitKeyConfig = .error (.configValidationError m) :=
  ⟨by decide, validate_data_config_rejects_unknown_keys badSplitKeyConfig (by decide)⟩

/-- C6: on any dataframe with at least one schema violation,
`DataEngine.validate` raises exactly once (one generic exception after
the whole pass), and the failure table it prints holds every
(row, column) violation of the dataframe — validation is lazy and does
not stop at the first failing row. -/
theorem validate_collects_all_failures (data : List Row)
    (h : ∃ i r, data.get? i = some r ∧ rowFailures r ≠ []) :
    DataEngine.validate data = .error (.exception "Schema errors and failure cases") ∧
    ∀ i r c, data.get? i = some r → c ∈ rowFailures r → (i, c) ∈ failureCases data := by
  have hmem : ∀ i r c, data.get? i = some r → c ∈ rowFailures r →
      (i, c) ∈ failureCases data := by
    intro i r c hget hc
    have hi : i < data.length := by
      by_contra hlt
      rw [List.get?_eq_none.mpr (Nat.le_of_not_lt hlt)] at hget
      exact Option.noConfusion hget
    unfold failureCases
    apply List.mem_flatMap.mpr
    refine ⟨i, List.mem_range.mpr hi, ?_⟩
    rw [hget]
    exact List.mem_map.mpr ⟨c, hc, rfl⟩
  refine ⟨?_, hmem⟩
  obtain ⟨i, r, hget, hne⟩ := h
  obtain ⟨c, hc⟩ := List.exists_mem_of_ne_nil _ hne
  have hfc : failureCases data ≠ [] := List.ne_nil_of_mem (hmem i r c hget hc)
  simp [DataEngine.validate, hfc]

/-- Witness for C6: a two-row dataframe whose first row has an
out-of-domain gender and whose second row an out-of-domain contract. -/
theorem validate_collects_all_failures_witness :
    (([badGenderRow, badContractRow] : List Row).get? 0 = some badGenderRow ∧
      rowFailures badGenderRow ≠ []) ∧
    (DataEngine.validate [badGenderRow, badContractRow] =
      .error (.exception "Schema errors and failure cases") ∧
    ∀ i r c, ([badGenderRow, badContractRow] : List Row).get? i = some r →
      c ∈ rowFailures r → (i, c) ∈ failureCases [badGenderRow, badContractRow]) :=
  ⟨⟨rfl, by decide⟩,
   validate_collects_all_failures [badGenderRow, badContractRow]
     ⟨0, badGenderRow, rfl, by decide⟩⟩

/-- C8: `TransformerOutput` is a frozen dataclass: every attempt to
reassign one of its four fields after construction hits the generated
`__setattr__`, which raises `FrozenInstanceError`; in particular no
pipeline operation can mutate an existing instance. -/
theorem transformer_output_setattr_frozen
    (t : TransformerOutput) (f : TOField) (v : List (List Rat)) :
    TransformerOutput.setattr t f v = .frozenInstanceError := by
  simp [TransformerOutput.setattr, TransformerOutput.frozen]

/-- C9 counterexample: the claim says every occurrence of a space in a
`TotalCharges` value is replaced by `"0"`.  On a cell of two spaces the
dir loader returns `"0 "`, not `"00"`: polars `str.replace` only
replaces the first match, so the claim as stated is false. -/
theorem loader_leaves_second_space :
    DirDataLoaderStrategy.call twoSpacesDir =
      .ok [{ totalCharges := ['0', ' '], otherCells := ["x"] }] ∧
    specReplaceAllSpaces [' ', ' '] = ['0', '0'] ∧
    (['0', ' '] : List Char) ≠ ['0', '0'] :=
  ⟨rfl, rfl, by decide⟩

/-- Concatenating the per-file row transforms of `readCsv` changes the
`TotalCharges` cell of each row by a first-space replacement and nothing
else, preserving row order and count. -/
theorem readCsv_flatten_pointwise (files : List (List CsvRow)) :
    ((files.map readCsv).flatten).length = files.flatten.length ∧
    ∀ j r s, ((files.map readCsv).flatten).get? j = some r →
      files.flatten.get? j = some s →
      r.otherCells = s.otherCells ∧
      FirstSpaceReplaced s.totalCharges r.totalCharges := by
  have hout : (files.map readCsv).flatten
      = files.flatten.map
          (fun r => { r with totalCharges := replaceFirstSpace r.totalCharges }) := by
    unfold readCsv
    rw [List.map_flatten]
  constructor
  · rw [hout, List.length_map]
  · intro j r s hr hs
    rw [hout, List.get?_map, hs] at hr
    cases Option.some.inj hr
    exact ⟨rfl, replaceFirstSpace_spec s.totalCharges⟩

/-- C9 amended: for every CSV loaded by the dir strategy, the
`TotalCharges` cell of each returned row equals the corresponding input
cell with its FIRST occurrence of a space (when one exists) replaced by
`"0"`, and every other cell is returned exactly as read, rows
concatenated in load order; the aws_s3 strategy, whenever at least one
CSV object loads, raises `TypeError` at its final
`pl.concat(dataframes, ignore_index=True)` (polars `concat` has no
`ignore_index` parameter) and returns no dataframe at all. -/
theorem loader_replaces_first_space_only (d : Directory) (objs : List S3Object)
    (hdir : d.isDir = true) (hne : csvEntries d ≠ [])
    (hs3 : loadableCsvObjects objs ≠ []) :
    (∃ out, DirDataLoaderStrategy.call d = .ok out ∧
      out.length = (dirCsvRows d).length ∧
      ∀ j r s, out.get? j = some r → (dirCsvRows d).get? j = some s →
        r.otherCells = s.otherCells ∧
        FirstSpaceReplaced s.totalCharges r.totalCharges) ∧
    AwsS3DataLoaderStrategy.call objs =
      .error (.typeError "concat() got an unexpected keyword argument ignore_index") := by
  constructor
  · have hlen : ¬ ((csvEntries d).length = 0) := fun h0 =>
      hne (List.length_eq_zero.mp h0)
    refine ⟨((csvEntries d).map fun e => readCsv e.content).flatten, ?_, ?_⟩
    · simp [DirDataLoaderStrategy.call, hdir, hlen]
    · have hmm : ((csvEntries d).map fun e => readCsv e.content)
          = ((csvEntries d).map fun e => e.content).map readCsv := by
        rw [List.map_map]
        rfl
      rw [hmm]
      exact readCsv_flatten_pointwise ((csvEntries d).map fun e => e.content)
  · have hlen : ¬ (((loadableCsvObjects objs).map fun o => readCsv o.content).length = 0) := by
      rw [List.length_map]
      exact fun h0 => hs3 (List.length_eq_zero.mp h0)
    simp only [AwsS3DataLoaderStrategy.call]
    rw [if_neg hlen]

/-- Witness for C9: a directory with one CSV of two rows (the first
row's `TotalCharges` a single space) and an S3 listing with one
loadable CSV. -/
theorem loader_replaces_first_space_only_witness :
    oneSpaceDir.isDir = true ∧ csvEntries oneSpaceDir ≠ [] ∧
    loadableCsvObjects oneSpaceObjects ≠ [] ∧
    ((∃ out, DirDataLoaderStrategy.call oneSpaceDir = .ok out ∧
      out.length = (dirCsvRows oneSpaceDir).length ∧
      ∀ j r s, out.get? j = some r → (dirCsvRows oneSpaceDir).get? j = some s →
        r.otherCells = s.otherCells ∧
        FirstSpaceReplaced s.totalCharges r.totalCharges) ∧
    AwsS3DataLoaderStrategy.call oneSpaceObjects =
      .error (.typeError "concat() got an unexpected keyword argument ignore_index")) :=
  ⟨rfl, by decide, by decide,
   loader_replaces_first_space_only oneSpaceDir oneSpaceObjects rfl
     (by decide) (by decide)⟩

/-- C10: assuming the earlier checks of `validate_data_config` pass, the
function raises `ConfigValidationError` for the transform-columns check
exactly when the concatenation of the `scale`, `dummy` and `ordinal`
column lists has a duplicate — i.e. when some list repeats a column or
two lists are not disjoint — and returns normally when all listed
columns are distinct. -/
theorem transform_cols_uniqueness_check (c : DataConfig)
    (h1 : findBadKey c.stageKeys dataStages = none)
    (h2 : c.loadStrategy ∈ strategyNames)
    (h3 : findBadKey c.splitKeys splitArgs = none)
    (h4 : c.ratio ≤ 1)
    (h5 : c.stratify.isBool = true)
    (h6 : findBadKey c.transformKeys transformParams = none) :
    (validate_data_config c =
        .error (.configValidationError
          "Columns should be unique within the transform parameters") ↔
      ¬ (transformCols c).Nodup) ∧
    (¬ (transformCols c).Nodup ↔
      (¬ c.scale.Nodup ∨ ¬ c.dummy.Nodup ∨ ¬ c.ordinal.Nodup ∨
       ¬ c.scale.Disjoint c.dummy ∨ ¬ c.scale.Disjoint c.ordinal ∨
       ¬ c.dummy.Disjoint c.ordinal)) ∧
    ((transformCols c).Nodup → validate_data_config c = .ok ()) := by
  have hcon : strategyNames.contains c.loadStrategy = true := by
    simpa using h2
  have hratio : ¬ (1 < c.ratio) := not_lt.mpr h4
  have hval : validate_data_config c =
      (if (transformCols c).length ≠ (transformCols c).dedup.length then
        .error (.configValidationError
          "Columns should be unique within the transform parameters")
      else .ok ()) := by
    simp [validate_data_config, h1, h3, h6, hcon, h2, hratio, h5]
  have hlen : (transformCols c).length = (transformCols c).dedup.length ↔
      (transformCols c).Nodup := by
    constructor
    · intro hl
      exact List.dedup_eq_self.mp ((List.dedup_sublist _).eq_of_length hl.symm)
    · intro hnd
      rw [List.dedup_eq_self.mpr hnd]
  have hsplit6 : (transformCols c).Nodup ↔
      (c.scale.Nodup ∧ c.dummy.Nodup ∧ c.ordinal.Nodup ∧
       c.scale.Disjoint c.dummy ∧ c.scale.Disjoint c.ordinal ∧
       c.dummy.Disjoint c.ordinal) := by
    unfold transformCols
    simp only [List.nodup_append, List.disjoint_append_right,
      List.disjoint_append_left]
    tauto
  refine ⟨?_, ?_, ?_⟩
  · rw [hval]
    by_cases hnd : (transformCols c).Nodup
    · have : ¬ ((transformCols c).length ≠ (transformCols c).dedup.length) :=
        fun hneq => hneq (hlen.mpr hnd)
      simp [this, hnd]
    · have : (transformCols c).length ≠ (transformCols c).dedup.length :=
        fun he => hnd (hlen.mp he)
      simp [this, hnd]
  · rw [hsplit6]
    tauto
  · intro hnd
    rw [hval]
    have : ¬ ((transformCols c).length ≠ (transformCols c).dedup.length) :=
      fun hneq => hneq (hlen.mpr hnd)
    simp [this]

/-- Witness for C10: a configuration listing `"tenure"` in both the
`scale` and `dummy` transform parameters. -/
theorem transform_cols_uniqueness_check_witness :
    findBadKey dupColsConfig.stageKeys dataStages = none ∧
    dupColsConfig.loadStrategy ∈ strategyNames ∧
    findBadKey dupColsConfig.splitKeys splitArgs = none ∧
    dupColsConfig.ratio ≤ 1 ∧
    dupColsConfig.stratify.isBool = true ∧
    findBadKey dupColsConfig.transformKeys transformParams = none ∧
    ((validate_data_config dupColsConfig =
        .error (.configValidationError
          "Columns should be unique within the transform parameters") ↔
      ¬ (transformCols dupColsConfig).Nodup) ∧
    (¬ (transformCols dupColsConfig).Nodup ↔
      (¬ dupColsConfig.scale.Nodup ∨ ¬ dupColsConfig.dummy.Nodup ∨
       ¬ dupColsConfig.ordinal.Nodup ∨
       ¬ dupColsConfig.scale.Disjoint dupColsConfig.dummy ∨
       ¬ dupColsConfig.scale.Disjoint dupColsConfig.ordinal ∨
       ¬ dupColsConfig.dummy.Disjoint dupColsConfig.ordinal)) ∧
    ((transformCols dupColsConfig).Nodup →
      validate_data_config dupColsConfig = .ok ())) :=
  ⟨rfl, by decide, rfl, by decide, rfl, rfl,
   transform_cols_uniqueness_check dupColsConfig rfl (by decide) rfl
     (by decide) rfl rfl⟩
